import Mathlib

/-!
Verification of the form-submission intake pipeline of the LifeLine Health
Plans backend (src/server.js).  The five POST intake handlers (contact,
appointment, quote, survey, newsletter), the health endpoint and the error
middleware are shallowly embedded as pure Lean functions.  JavaScript
truthiness of request-body/environment strings is modelled over
`Option String` (absent = `none`, falsy also for the empty string); the
relational store and the outbound-mail transport are modelled by explicit
state passing over `World`, with `Option String` arguments `dbErr`/`mailErr`
standing for the outcome of the awaited persistence and dispatch calls
(`none` = success, `some detail` = the raised error's detail).
-/

/-- JS truthiness for a possibly-absent string value (request-body field or
`process.env` entry): `undefined` and `""` are falsy, every other string is
truthy. -/
def truthy : Option String → Bool
  | none => false
  | some s => !(s == "")

/-- JS template interpolation `${x}` of a possibly-undefined value:
`undefined` renders as the string `"undefined"`. -/
def jsStr (o : Option String) : String :=
  o.getD "undefined"

/-- JS `x || d` for a possibly-absent string `x`: the string itself when
truthy, else the default `d`. -/
def jsOr (o : Option String) (d : String) : String :=
  match o with
  | none => d
  | some s => if s == "" then d else s

/-- The environment variables read by server.js that matter to the intake
pipeline (each a string or absent, like `process.env`). -/
structure Env where
  emailUser : Option String
  emailPassword : Option String
  emailFrom : Option String
  calendlyUrl : Option String
  nodeEnv : Option String
deriving DecidableEq

/-- Row of `contact_submissions` (columns of the INSERT at src/server.js:66). -/
structure ContactRow where
  id : Nat
  name : Option String
  email : Option String
  phone : Option String
  message : Option String
  submission_type : String
  created_at : Nat
deriving DecidableEq

/-- Row of `appointment_requests` (src/server.js:116). -/
structure ApptRow where
  id : Nat
  name : Option String
  email : Option String
  phone : Option String
  preferred_date : Option String
  preferred_time : Option String
  message : Option String
  created_at : Nat
deriving DecidableEq

/-- Row of `quote_requests` (src/server.js:157). -/
structure QuoteRow where
  id : Nat
  company_name : Option String
  contact_name : Option String
  email : Option String
  phone : Option String
  num_employees : Option String
  current_provider : Option String
  interested_in : Option String
  created_at : Nat
deriving DecidableEq

/-- Row of `survey_submissions` (src/server.js:209); `survey_data` holds the
serialized form of the submitted `surveyData`. -/
structure SurveyRow where
  id : Nat
  survey_type : Option String
  survey_data : List Char
  email : Option String
  created_at : Nat
deriving DecidableEq

/-- Row of `newsletter_subscriptions` (src/server.js:241); `email` is the
natural key of the upsert. -/
structure NewsRow where
  email : String
  name : Option String
  createdAt : Nat
deriving DecidableEq

/-- An outbound notification mail handed to `transporter.sendMail`. -/
structure Email where
  efrom : Option String
  eto : Option String
  subject : String
  html : String
deriving DecidableEq

/-- The observable state: the five tables of the relational store plus the
log of successfully dispatched notification mails. -/
structure World where
  contacts : List ContactRow
  appointments : List ApptRow
  quotes : List QuoteRow
  surveys : List SurveyRow
  newsletters : List NewsRow
  sentEmails : List Email
deriving DecidableEq

/-- The JSON responses the intake handlers produce: `ok` is the
`res.json({success: true, message, ...extra})` shape, `badRequest` is
`res.status(400).json({error})`, `serverError` is `res.status(500).json({error})`. -/
inductive Response where
  | ok (message : String) (extra : List (String × String))
  | badRequest (error : String)
  | serverError (error : String)
deriving DecidableEq

/-- Whether a response is the success shape (`success: true`). -/
def isOk : Response → Bool
  | Response.ok _ _ => true
  | _ => false

/-- Request body of POST /api/contact. -/
structure ContactReq where
  name : Option String
  email : Option String
  phone : Option String
  message : Option String
  submissionType : Option String
deriving DecidableEq

/-- Request body of POST /api/appointment. -/
structure ApptReq where
  name : Option String
  email : Option String
  phone : Option String
  preferredDate : Option String
  preferredTime : Option String
  message : Option String
deriving DecidableEq

/-- Request body of POST /api/quote. -/
structure QuoteReq where
  companyName : Option String
  contactName : Option String
  email : Option String
  phone : Option String
  numEmployees : Option String
  currentProvider : Option String
  interestedIn : Option String
deriving DecidableEq

/-- Request body of POST /api/newsletter. -/
structure NewsReq where
  email : Option String
  name : Option String
deriving DecidableEq

/-- The notification-mail HTML of the contact handler (template literal at
src/server.js:79-87), substituted exactly as the code does: `name`,
`message` and `submissionType` raw, `email`/`phone` through `|| 'Not
provided'`. -/
def contactHtml (name : String) (email phone message : Option String)
    (stype : String) (createdAt : Nat) : String :=
  "\n          <h2>New Contact Form Submission</h2>\n          <p><strong>Name:</strong> " ++
  name ++
  ("</p>\n          <p><strong>Email:</strong> " ++
   (jsOr email "Not provided" ++
    ("</p>\n          <p><strong>Phone:</strong> " ++
     (jsOr phone "Not provided" ++
      ("</p>\n          <p><strong>Message:</strong> " ++
       (jsStr message ++
        ("</p>\n          <p><strong>Type:</strong> " ++
         (stype ++
          ("</p>\n          <p><strong>Submitted at:</strong> " ++
           (Nat.repr createdAt ++ "</p>\n        "))))))))))

/-- The notification-mail HTML of the quote handler (template literal at
src/server.js:176-186): `contactName` and `email` raw, the other fields
through their `|| '...'` defaults. -/
def quoteHtml (companyName : Option String) (contactName email : String)
    (phone numEmployees currentProvider interestedIn : Option String)
    (createdAt : Nat) : String :=
  "\n          <h2>New Quote Request</h2>\n          <p><strong>Company:</strong> " ++
  (jsOr companyName "N/A" ++
   ("</p>\n          <p><strong>Contact Name:</strong> " ++
    (contactName ++
     ("</p>\n          <p><strong>Email:</strong> " ++
      (email ++
       ("</p>\n          <p><strong>Phone:</strong> " ++
        (jsOr phone "Not provided" ++
         ("</p>\n          <p><strong>Number of Employees:</strong> " ++
          (jsOr numEmployees "Not specified" ++
           ("</p>\n          <p><strong>Current Provider:</strong> " ++
            (jsOr currentProvider "None" ++
             ("</p>\n          <p><strong>Interested In:</strong> " ++
              (jsOr interestedIn "General Information" ++
               ("</p>\n          <p><strong>Submitted at:</strong> " ++
                (Nat.repr createdAt ++ "</p>\n        ")))))))))))))))

/-- The contact row inserted for a validated request (VALUES of
src/server.js:66-67, id and created_at returned by the store). -/
def contactRowOf (req : ContactReq) (now newId : Nat) : ContactRow :=
  { id := newId, name := req.name, email := req.email, phone := req.phone,
    message := req.message, submission_type := req.submissionType.getD "general",
    created_at := now }

/-- POST /api/contact (src/server.js:53-102). `dbErr`/`mailErr` are the
outcomes of the awaited `pool.query` and `transporter.sendMail` calls. -/
def contactHandler (env : Env) (dbErr mailErr : Option String) (now : Nat)
    (req : ContactReq) (w : World) : Response × World :=
  if !truthy req.name || (!truthy req.email && !truthy req.phone) then
    (Response.badRequest "Name and either email or phone number are required", w)
  else
    match dbErr with
    | some _ => (Response.serverError "Failed to submit contact form", w)
    | none =>
      let newId := w.contacts.length + 1
      let w1 := { w with contacts := w.contacts ++ [contactRowOf req now newId] }
      if truthy env.emailUser && truthy env.emailPassword then
        match mailErr with
        | some _ => (Response.serverError "Failed to submit contact form", w1)
        | none =>
          let mail : Email :=
            { efrom := env.emailFrom, eto := env.emailUser,
              subject := "New Contact Form Submission - " ++ req.submissionType.getD "general",
              html := contactHtml (jsStr req.name) req.email req.phone req.message
                        (req.submissionType.getD "general") now }
          (Response.ok "Thank you for contacting us. We will reach out to you soon!"
             [("submissionId", Nat.repr newId)],
           { w1 with sentEmails := w1.sentEmails ++ [mail] })
      else
        (Response.ok "Thank you for contacting us. We will reach out to you soon!"
           [("submissionId", Nat.repr newId)], w1)

/-- The appointment row inserted for a validated request (src/server.js:116-122). -/
def apptRowOf (req : ApptReq) (now newId : Nat) : ApptRow :=
  { id := newId, name := req.name, email := req.email, phone := req.phone,
    preferred_date := req.preferredDate, preferred_time := req.preferredTime,
    message := req.message, created_at := now }

/-- POST /api/appointment (src/server.js:105-135); sends no mail, and its
success response passes `calendlyUrl` through from the environment (a JSON
key that is dropped when the variable is undefined). -/
def appointmentHandler (env : Env) (dbErr : Option String) (now : Nat)
    (req : ApptReq) (w : World) : Response × World :=
  if !truthy req.name || !truthy req.email then
    (Response.badRequest "Name and email are required for appointment requests", w)
  else
    match dbErr with
    | some _ => (Response.serverError "Failed to submit appointment request", w)
    | none =>
      let newId := w.appointments.length + 1
      (Response.ok "Appointment request received. We will contact you to confirm."
         ([("appointmentId", Nat.repr newId)] ++
          (match env.calendlyUrl with
           | some u => [("calendlyUrl", u)]
           | none => [])),
       { w with appointments := w.appointments ++ [apptRowOf req now newId] })

/-- The quote row inserted for a validated request (src/server.js:157-167). -/
def quoteRowOf (req : QuoteReq) (now newId : Nat) : QuoteRow :=
  { id := newId, company_name := req.companyName, contact_name := req.contactName,
    email := req.email, phone := req.phone, num_employees := req.numEmployees,
    current_provider := req.currentProvider, interested_in := req.interestedIn,
    created_at := now }

/-- POST /api/quote (src/server.js:138-201). -/
def quoteHandler (env : Env) (dbErr mailErr : Option String) (now : Nat)
    (req : QuoteReq) (w : World) : Response × World :=
  if !truthy req.contactName || !truthy req.email then
    (Response.badRequest "Contact name and email are required for quote requests", w)
  else
    match dbErr with
    | some _ => (Response.serverError "Failed to submit quote request", w)
    | none =>
      let newId := w.quotes.length + 1
      let w1 := { w with quotes := w.quotes ++ [quoteRowOf req now newId] }
      if truthy env.emailUser && truthy env.emailPassword then
        match mailErr with
        | some _ => (Response.serverError "Failed to submit quote request", w1)
        | none =>
          let mail : Email :=
            { efrom := env.emailFrom, eto := env.emailUser,
              subject := "New Group Insurance Quote Request - " ++ jsOr req.companyName "Individual",
              html := quoteHtml req.companyName (jsStr req.contactName) (jsStr req.email)
                        req.phone req.numEmployees req.currentProvider req.interestedIn now }
          (Response.ok "Quote request received. We will prepare your personalized quote and contact you soon."
             [("quoteId", Nat.repr newId)],
           { w1 with sentEmails := w1.sentEmails ++ [mail] })
      else
        (Response.ok "Quote request received. We will prepare your personalized quote and contact you soon."
           [("quoteId", Nat.repr newId)], w1)

/-- The newsletter upsert (src/server.js:240-246): `ON CONFLICT (email) DO
UPDATE SET name = EXCLUDED.name, created_at = CURRENT_TIMESTAMP`. -/
def upsertNews (rows : List NewsRow) (email : String) (name : Option String)
    (now : Nat) : List NewsRow :=
  if rows.any (fun r => r.email == email) then
    rows.map (fun r => if r.email == email then { r with name := name, createdAt := now } else r)
  else
    rows ++ [{ email := email, name := name, createdAt := now }]

/-- POST /api/newsletter (src/server.js:232-258); sends no mail and returns
no id. -/
def newsletterHandler (dbErr : Option String) (now : Nat) (req : NewsReq)
    (w : World) : Response × World :=
  if !truthy req.email then
    (Response.badRequest "Email is required for newsletter subscription", w)
  else
    match dbErr with
    | some _ => (Response.serverError "Failed to subscribe to newsletter", w)
    | none =>
      (Response.ok "Successfully subscribed to our newsletter!" [],
       { w with newsletters := upsertNews w.newsletters (req.email.getD "") req.name now })

/-- Body of GET /api/health (src/server.js:44-50). -/
structure HealthResp where
  status : String
  message : String
  timestamp : Nat
deriving DecidableEq

/-- GET /api/health: the handler closes over the environment and the pool
but reads neither; it answers from constants and the clock alone. -/
def healthHandler (_env : Env) (_dbErr : Option String) (_w : World)
    (now : Nat) : HealthResp :=
  { status := "healthy", message := "LifeLine Health Plans API is running",
    timestamp := now }

/-- Body produced by the catch-all error middleware (src/server.js:320-326):
the detailed message is attached only when NODE_ENV is `development`. -/
structure MwResp where
  error : String
  message : Option String
deriving DecidableEq

/-- The catch-all error-handling middleware (src/server.js:320-326). -/
def errorMiddleware (env : Env) (errMsg : String) : MwResp :=
  { error := "Something went wrong!",
    message := if env.nodeEnv == some "development" then some errMsg else none }

/-!
JSON values and their serialization.  Modelled from the spec: the survey
handler's own code only calls the platform's `JSON.stringify` (src/server.js:216),
and the read-back/deserialization path of the round-trip property is outside
src/ entirely, so both directions are modelled here from the spec's words
("arbitrary structured surveyData", "stored value, when read back and
deserialized, deep-equals the input").  Numbers are modelled as integers
(floating-point values are outside the shallow embedding) and strings as
character lists with quote/backslash escaping.
-/

mutual
inductive Json where
  | null : Json
  | bool (b : Bool) : Json
  | num (n : Int) : Json
  | str (s : List Char) : Json
  | arr (xs : JsonList) : Json
  | obj (fs : JsonObj) : Json
inductive JsonList where
  | nil : JsonList
  | cons (hd : Json) (tl : JsonList) : JsonList
inductive JsonObj where
  | nil : JsonObj
  | cons (k : List Char) (v : Json) (tl : JsonObj) : JsonObj
end

/-- The decimal digit character for `d < 10`. -/
def charOfDigit (d : Nat) : Char :=
  Char.ofNat (48 + d)

/-- The numeric value of a decimal digit character. -/
def digitVal (c : Char) : Nat :=
  c.toNat - 48

/-- Decimal character representation of a natural number (big-endian). -/
def natToChars (m : Nat) : List Char :=
  if m = 0 then ['0'] else ((Nat.digits 10 m).reverse.map charOfDigit)

/-- Natural number denoted by a big-endian list of decimal digit characters. -/
def natOfChars (cs : List Char) : Nat :=
  Nat.ofDigits 10 ((cs.map digitVal).reverse)

/-- Modelled from the spec: the string-escaping applied by the serializer
(backslash-escape the two JSON string metacharacters). -/
def escapeChars : List Char → List Char
  | [] => []
  | c :: cs =>
    if (c == '"') || (c == '\\') then '\\' :: (c :: escapeChars cs)
    else c :: escapeChars cs

mutual

/-- Modelled from the spec: serialization of a structured value
(`JSON.stringify` shape: no whitespace, fields in order). -/
def strV : Json → List Char
  | Json.null => ['n', 'u', 'l', 'l']
  | Json.bool true => ['t', 'r', 'u', 'e']
  | Json.bool false => ['f', 'a', 'l', 's', 'e']
  | Json.num n => if n < 0 then '-' :: natToChars (-n).toNat else natToChars n.toNat
  | Json.str s => '"' :: (escapeChars s ++ ['"'])
  | Json.arr xs => '[' :: strItems xs
  | Json.obj fs => '{' :: strFields fs

/-- Serialization of array elements, including the closing bracket. -/
def strItems : JsonList → List Char
  | JsonList.nil => [']']
  | JsonList.cons h JsonList.nil => strV h ++ [']']
  | JsonList.cons h (JsonList.cons h2 t) =>
      strV h ++ (',' :: strItems (JsonList.cons h2 t))

/-- Serialization of object fields, including the closing brace. -/
def strFields : JsonObj → List Char
  | JsonObj.nil => ['}']
  | JsonObj.cons k v JsonObj.nil =>
      '"' :: (escapeChars k ++ ('"' :: (':' :: (strV v ++ ['}']))))
  | JsonObj.cons k v (JsonObj.cons k2 v2 t) =>
      '"' :: (escapeChars k ++ ('"' :: (':' :: (strV v ++ (',' :: strFields (JsonObj.cons k2 v2 t))))))

end

/-- Parser for string bodies after the opening quote: consume up to the
closing quote, undoing the backslash escapes. -/
def parseStrAux : List Char → Option (List Char × List Char)
  | [] => none
  | c :: cs =>
    if c == '\\' then
      match cs with
      | [] => none
      | d :: cs2 => (parseStrAux cs2).map (fun sr => (d :: sr.1, sr.2))
    else if c == '"' then some ([], cs)
    else (parseStrAux cs).map (fun sr => (c :: sr.1, sr.2))

mutual

/-- Modelled from the spec: recursive-descent deserializer (value form),
with a fuel argument bounding the recursion depth. -/
def parseV : Nat → List Char → Option (Json × List Char)
  | 0, _ => none
  | _ + 1, [] => none
  | fuel + 1, c :: rest =>
    if c == 'n' then
      if rest.take 3 = ['u', 'l', 'l'] then some (Json.null, rest.drop 3) else none
    else if c == 't' then
      if rest.take 3 = ['r', 'u', 'e'] then some (Json.bool true, rest.drop 3) else none
    else if c == 'f' then
      if rest.take 4 = ['a', 'l', 's', 'e'] then some (Json.bool false, rest.drop 4) else none
    else if c == '"' then
      (parseStrAux rest).map (fun sr => (Json.str sr.1, sr.2))
    else if c == '[' then
      (parseArr fuel rest).map (fun ar => (Json.arr ar.1, ar.2))
    else if c == '{' then
      (parseObj fuel rest).map (fun fr => (Json.obj fr.1, fr.2))
    else if c == '-' then
      match rest.takeWhile Char.isDigit with
      | [] => none
      | _ :: _ =>
        some (Json.num (-(Int.ofNat (natOfChars (rest.takeWhile Char.isDigit)))),
              rest.dropWhile Char.isDigit)
    else if c.isDigit then
      some (Json.num (Int.ofNat (natOfChars ((c :: rest).takeWhile Char.isDigit))),
            (c :: rest).dropWhile Char.isDigit)
    else none

/-- Deserializer for the element list of an array, after the opening bracket. -/
def parseArr : Nat → List Char → Option (JsonList × List Char)
  | 0, _ => none
  | _ + 1, [] => none
  | fuel + 1, c :: rest =>
    if c == ']' then some (JsonList.nil, rest)
    else
      match parseV fuel (c :: rest) with
      | none => none
      | some (v, r) =>
        match r with
        | ',' :: r2 => (parseArr fuel r2).map (fun ar => (JsonList.cons v ar.1, ar.2))
        | ']' :: r2 => some (JsonList.cons v JsonList.nil, r2)
        | _ => none

/-- Deserializer for the field list of an object, after the opening brace. -/
def parseObj : Nat → List Char → Option (JsonObj × List Char)
  | 0, _ => none
  | _ + 1, [] => none
  | fuel + 1, c :: rest =>
    if c == '}' then some (JsonObj.nil, rest)
    else if c == '"' then
      match parseStrAux rest with
      | none => none
      | some (k, r1) =>
        match r1 with
        | ':' :: r2 =>
          match parseV fuel r2 with
          | none => none
          | some (v, r3) =>
            match r3 with
            | ',' :: r4 => (parseObj fuel r4).map (fun fr => (JsonObj.cons k v fr.1, fr.2))
            | '}' :: r4 => some (JsonObj.cons k v JsonObj.nil, r4)
            | _ => none
        | _ => none
    else none

end

/-- Modelled from the spec: top-level deserialization of a stored value
(the round-trip's read-back direction); the input's length bounds the fuel. -/
def parseJson (cs : List Char) : Option Json :=
  match parseV (cs.length + 1) cs with
  | some (v, []) => some v
  | _ => none

/-- Request body of POST /api/survey: `surveyData` is arbitrary structured
data. -/
structure SurveyReq where
  surveyType : Option String
  surveyData : Json
  email : Option String

/-- The survey row inserted (src/server.js:209-218): `survey_data` is the
serialized `surveyData`. -/
def surveyRowOf (req : SurveyReq) (now newId : Nat) : SurveyRow :=
  { id := newId, survey_type := req.surveyType, survey_data := strV req.surveyData,
    email := req.email, created_at := now }

/-- POST /api/survey (src/server.js:204-229): no validation, one insert of
the serialized survey data, no mail. -/
def surveyHandler (dbErr : Option String) (now : Nat) (req : SurveyReq)
    (w : World) : Response × World :=
  match dbErr with
  | some _ => (Response.serverError "Failed to submit survey", w)
  | none =>
    let newId := w.surveys.length + 1
    (Response.ok "Survey submitted successfully. We will review and reach out to guide your journey!"
       [("surveyId", Nat.repr newId)],
     { w with surveys := w.surveys ++ [surveyRowOf req now newId] })

/-- One character of conventional HTML escaping. -/
def escChar (c : Char) : List Char :=
  if c == '&' then "&amp;".data
  else if c == '<' then "&lt;".data
  else if c == '>' then "&gt;".data
  else if c == '"' then "&quot;".data
  else [c]

/-- Modelled from the spec: conventional HTML escaping of a string
("HTML-escaped ... values substituted into a fixed subject/body layout"). -/
def htmlEscape (s : String) : String :=
  ⟨s.data.foldr (fun c acc => escChar c ++ acc) []⟩

/-- Modelled from the spec: the contact notification body as the spec
describes it, with every user-supplied field value HTML-escaped before
substitution into the same fixed layout. -/
def contactHtmlEscapedSpec (name : String) (email phone message : Option String)
    (stype : String) (createdAt : Nat) : String :=
  "\n          <h2>New Contact Form Submission</h2>\n          <p><strong>Name:</strong> " ++
  htmlEscape name ++
  ("</p>\n          <p><strong>Email:</strong> " ++
   (htmlEscape (jsOr email "Not provided") ++
    ("</p>\n          <p><strong>Phone:</strong> " ++
     (htmlEscape (jsOr phone "Not provided") ++
      ("</p>\n          <p><strong>Message:</strong> " ++
       (htmlEscape (jsStr message) ++
        ("</p>\n          <p><strong>Type:</strong> " ++
         (htmlEscape stype ++
          ("</p>\n          <p><strong>Submitted at:</strong> " ++
           (Nat.repr createdAt ++ "</p>\n        "))))))))))

mutual

/-- Fuel needed by `parseV` on the serialization of a value. -/
def fuelV : Json → Nat
  | Json.null => 1
  | Json.bool _ => 1
  | Json.num _ => 1
  | Json.str _ => 1
  | Json.arr xs => 1 + fuelL xs
  | Json.obj fs => 1 + fuelO fs

/-- Fuel needed by `parseArr` on serialized array elements. -/
def fuelL : JsonList → Nat
  | JsonList.nil => 1
  | JsonList.cons h JsonList.nil => 1 + fuelV h
  | JsonList.cons h (JsonList.cons h2 t) => 1 + fuelV h + fuelL (JsonList.cons h2 t)

/-- Fuel needed by `parseObj` on serialized object fields. -/
def fuelO : JsonObj → Nat
  | JsonObj.nil => 1
  | JsonObj.cons _ v JsonObj.nil => 1 + fuelV v
  | JsonObj.cons _ v (JsonObj.cons k2 v2 t) => 1 + fuelV v + fuelO (JsonObj.cons k2 v2 t)

end

/-- The continuation after a serialized number never starts with a digit. -/
def dFree : List Char → Bool
  | [] => true
  | c :: _ => !c.isDigit

/-- An environment with no email credentials configured. -/
def envNone : Env :=
  { emailUser := none, emailPassword := none, emailFrom := none,
    calendlyUrl := none, nodeEnv := none }

/-- An environment with email credentials configured. -/
def envCreds : Env :=
  { emailUser := some "staff@lifeline.test", emailPassword := some "hunter2",
    emailFrom := some "noreply@lifeline.test", calendlyUrl := some "https://cal.test",
    nodeEnv := some "production" }

/-- The empty store. -/
def w0 : World :=
  { contacts := [], appointments := [], quotes := [], surveys := [],
    newsletters := [], sentEmails := [] }

/-- A valid contact request. -/
def reqC : ContactReq :=
  { name := some "Jo", email := some "jo@x.com", phone := none,
    message := some "hi", submissionType := none }

/-- An invalid contact request (name present, neither email nor phone). -/
def reqCbad : ContactReq :=
  { name := some "Jo", email := none, phone := some "",
    message := none, submissionType := none }

/-- A valid appointment request. -/
def reqA : ApptReq :=
  { name := some "Jo", email := some "jo@x.com", phone := none,
    preferredDate := none, preferredTime := none, message := none }

/-- A valid quote request. -/
def reqQ : QuoteReq :=
  { companyName := none, contactName := some "Jo", email := some "jo@x.com",
    phone := none, numEmployees := none, currentProvider := none,
    interestedIn := none }

/-- A survey request with structured data and no numbers (so that witnesses
evaluate inside the kernel). -/
def reqS : SurveyReq :=
  { surveyType := some "medicare", surveyData := Json.null, email := none }

/-- A valid newsletter request. -/
def reqN : NewsReq :=
  { email := some "a@b.com", name := some "Ann" }

/-- C1: a POST /api/contact succeeds (success/message/submissionId shape)
iff the body's name is truthy and at least one of email and phone is
truthy; otherwise the handler answers the 400 error `Name and either email
or phone number are required` and the store is unchanged.  Stated for the
normal-operation outcomes (`dbErr = none`, `mailErr = none`). -/
theorem contact_success_iff_required (env : Env) (now : Nat) (req : ContactReq) (w : World) :
    (isOk (contactHandler env none none now req w).1
       = (truthy req.name && (truthy req.email || truthy req.phone)))
  ∧ ((truthy req.name && (truthy req.email || truthy req.phone)) = true →
       (contactHandler env none none now req w).1 =
         Response.ok "Thank you for contacting us. We will reach out to you soon!"
           [("submissionId", Nat.repr (w.contacts.length + 1))])
  ∧ ((truthy req.name && (truthy req.email || truthy req.phone)) = false →
       contactHandler env none none now req w =
         (Response.badRequest "Name and either email or phone number are required", w)) := by
  cases hn : truthy req.name <;> cases he : truthy req.email <;>
    cases hp : truthy req.phone <;>
      cases hc : truthy env.emailUser && truthy env.emailPassword <;>
        simp [contactHandler, hn, he, hp, hc, isOk]

/-- Witness for C1 at concrete inputs: a valid and an invalid request. -/
theorem contact_success_iff_required_check :
    (isOk (contactHandler envNone none none 0 reqC w0).1
       = (truthy reqC.name && (truthy reqC.email || truthy reqC.phone)))
  ∧ ((truthy reqC.name && (truthy reqC.email || truthy reqC.phone)) = true →
       (contactHandler envNone none none 0 reqC w0).1 =
         Response.ok "Thank you for contacting us. We will reach out to you soon!"
           [("submissionId", Nat.repr (w0.contacts.length + 1))])
  ∧ ((truthy reqC.name && (truthy reqC.email || truthy reqC.phone)) = false →
       contactHandler envNone none none 0 reqC w0 =
         (Response.badRequest "Name and either email or phone number are required", w0)) :=
  contact_success_iff_required envNone 0 reqC w0

/-- C2: POST /api/appointment succeeds iff name and email are both truthy,
and POST /api/quote succeeds iff contactName and email are both truthy;
when either member of the pair is missing the handler answers its 400
error and performs no insert (store unchanged). -/
theorem appt_quote_success_iff_required (env : Env) (now : Nat) (areq : ApptReq)
    (qreq : QuoteReq) (w : World) :
    (isOk (appointmentHandler env none now areq w).1
       = (truthy areq.name && truthy areq.email))
  ∧ ((truthy areq.name && truthy areq.email) = false →
       appointmentHandler env none now areq w =
         (Response.badRequest "Name and email are required for appointment requests", w))
  ∧ (isOk (quoteHandler env none none now qreq w).1
       = (truthy qreq.contactName && truthy qreq.email))
  ∧ ((truthy qreq.contactName && truthy qreq.email) = false →
       quoteHandler env none none now qreq w =
         (Response.badRequest "Contact name and email are required for quote requests", w)) := by
  cases ha : truthy areq.name <;> cases hb : truthy areq.email <;>
    cases hq : truthy qreq.contactName <;> cases hr : truthy qreq.email <;>
      cases hc : truthy env.emailUser && truthy env.emailPassword <;>
        simp [appointmentHandler, quoteHandler, ha, hb, hq, hr, hc, isOk]

/-- Witness for C2 at concrete inputs. -/
theorem appt_quote_success_iff_required_check :
    (isOk (appointmentHandler envNone none 0 reqA w0).1
       = (truthy reqA.name && truthy reqA.email))
  ∧ ((truthy reqA.name && truthy reqA.email) = false →
       appointmentHandler envNone none 0 reqA w0 =
         (Response.badRequest "Name and email are required for appointment requests", w0))
  ∧ (isOk (quoteHandler envNone none none 0 reqQ w0).1
       = (truthy reqQ.contactName && truthy reqQ.email))
  ∧ ((truthy reqQ.contactName && truthy reqQ.email) = false →
       quoteHandler envNone none none 0 reqQ w0 =
         (Response.badRequest "Contact name and email are required for quote requests", w0)) :=
  appt_quote_success_iff_required envNone 0 reqA reqQ w0

/-- C10: GET /api/health answers the fixed healthy body for every
environment, every persistence-store outcome and every store state — it
performs no connectivity check. -/
theorem health_ignores_env_and_store (env : Env) (dbErr : Option String)
    (w : World) (now : Nat) :
    healthHandler env dbErr w now =
      { status := "healthy", message := "LifeLine Health Plans API is running",
        timestamp := now } :=
  rfl

/-- C5: with EMAIL_USER/EMAIL_PASSWORD not both configured, valid contact
and quote submissions still succeed and persist their row, and no
notification is dispatched for any persistence/dispatch outcome — the
dispatcher only ever runs when both credentials are truthy. -/
theorem creds_absent_no_dispatch (env : Env) (dbE mailE : Option String) (now : Nat)
    (req : ContactReq) (qreq : QuoteReq) (w : World)
    (hcred : (truthy env.emailUser && truthy env.emailPassword) = false)
    (hc : (truthy req.name && (truthy req.email || truthy req.phone)) = true)
    (hq : (truthy qreq.contactName && truthy qreq.email) = true) :
    (contactHandler env none none now req w).1 =
      Response.ok "Thank you for contacting us. We will reach out to you soon!"
        [("submissionId", Nat.repr (w.contacts.length + 1))]
  ∧ (contactHandler env none none now req w).2.contacts =
      w.contacts ++ [contactRowOf req now (w.contacts.length + 1)]
  ∧ (contactHandler env dbE mailE now req w).2.sentEmails = w.sentEmails
  ∧ (quoteHandler env none none now qreq w).1 =
      Response.ok "Quote request received. We will prepare your personalized quote and contact you soon."
        [("quoteId", Nat.repr (w.quotes.length + 1))]
  ∧ (quoteHandler env none none now qreq w).2.quotes =
      w.quotes ++ [quoteRowOf qreq now (w.quotes.length + 1)]
  ∧ (quoteHandler env dbE mailE now qreq w).2.sentEmails = w.sentEmails := by
  have h1 : (!truthy req.name || (!truthy req.email && !truthy req.phone)) = false := by
    cases hn : truthy req.name <;> cases he : truthy req.email <;>
      cases hp : truthy req.phone <;> simp_all
  have h3 : (!truthy qreq.contactName || !truthy qreq.email) = false := by
    cases ha : truthy qreq.contactName <;> cases hb : truthy qreq.email <;> simp_all
  cases dbE <;>
    refine ⟨?_, ?_, ?_, ?_, ?_, ?_⟩ <;>
      simp [contactHandler, quoteHandler, h1, h3, hcred]

/-- Witness for C5 at concrete inputs: no credentials, failing store and
transport outcomes for the frame conjuncts. -/
theorem creds_absent_no_dispatch_check :
    (contactHandler envNone none none 0 reqC w0).1 =
      Response.ok "Thank you for contacting us. We will reach out to you soon!"
        [("submissionId", Nat.repr (w0.contacts.length + 1))]
  ∧ (contactHandler envNone none none 0 reqC w0).2.contacts =
      w0.contacts ++ [contactRowOf reqC 0 (w0.contacts.length + 1)]
  ∧ (contactHandler envNone (some "down") (some "smtp down") 0 reqC w0).2.sentEmails = w0.sentEmails
  ∧ (quoteHandler envNone none none 0 reqQ w0).1 =
      Response.ok "Quote request received. We will prepare your personalized quote and contact you soon."
        [("quoteId", Nat.repr (w0.quotes.length + 1))]
  ∧ (quoteHandler envNone none none 0 reqQ w0).2.quotes =
      w0.quotes ++ [quoteRowOf reqQ 0 (w0.quotes.length + 1)]
  ∧ (quoteHandler envNone (some "down") (some "smtp down") 0 reqQ w0).2.sentEmails = w0.sentEmails :=
  creds_absent_no_dispatch envNone (some "down") (some "smtp down") 0 reqC reqQ w0
    (by decide) (by decide) (by decide)

/-- C6: the appointment, survey and newsletter handlers dispatch no
notification mail for any input, environment and store outcome. -/
theorem appt_survey_news_never_notify (env : Env) (dbErr : Option String) (now : Nat)
    (areq : ApptReq) (sreq : SurveyReq) (nreq : NewsReq) (w : World) :
    (appointmentHandler env dbErr now areq w).2.sentEmails = w.sentEmails
  ∧ (surveyHandler dbErr now sreq w).2.sentEmails = w.sentEmails
  ∧ (newsletterHandler dbErr now nreq w).2.sentEmails = w.sentEmails := by
  cases dbErr <;>
    cases ha : truthy areq.name <;> cases hb : truthy areq.email <;>
      cases hn : truthy nreq.email <;>
        simp [appointmentHandler, surveyHandler, newsletterHandler, ha, hb, hn]

/-- C7: when the persistence step raises (any detail string `d`), every
POST endpoint answers its fixed generic 500 error with the store unchanged,
the detail never appearing in the body; the catch-all middleware likewise
suppresses the detail outside development mode. -/
theorem persistence_failure_generic_500 (env : Env) (mailE : Option String) (now : Nat)
    (req : ContactReq) (areq : ApptReq) (qreq : QuoteReq) (sreq : SurveyReq)
    (nreq : NewsReq) (w : World) (d : String)
    (hc : (truthy req.name && (truthy req.email || truthy req.phone)) = true)
    (ha : (truthy areq.name && truthy areq.email) = true)
    (hq : (truthy qreq.contactName && truthy qreq.email) = true)
    (hn : truthy nreq.email = true)
    (hdev : (env.nodeEnv == some "development") = false) :
    contactHandler env (some d) mailE now req w =
      (Response.serverError "Failed to submit contact form", w)
  ∧ appointmentHandler env (some d) now areq w =
      (Response.serverError "Failed to submit appointment request", w)
  ∧ quoteHandler env (some d) mailE now qreq w =
      (Response.serverError "Failed to submit quote request", w)
  ∧ surveyHandler (some d) now sreq w =
      (Response.serverError "Failed to submit survey", w)
  ∧ newsletterHandler (some d) now nreq w =
      (Response.serverError "Failed to subscribe to newsletter", w)
  ∧ (errorMiddleware env d).message = none := by
  have h1 : (!truthy req.name || (!truthy req.email && !truthy req.phone)) = false := by
    cases h : truthy req.name <;> cases he : truthy req.email <;>
      cases hp : truthy req.phone <;> simp_all
  have h2 : (!truthy areq.name || !truthy areq.email) = false := by
    cases h : truthy areq.name <;> cases hb : truthy areq.email <;> simp_all
  have h3 : (!truthy qreq.contactName || !truthy qreq.email) = false := by
    cases h : truthy qreq.contactName <;> cases hb : truthy qreq.email <;> simp_all
  refine ⟨?_, ?_, ?_, ?_, ?_, ?_⟩ <;>
    simp [contactHandler, appointmentHandler, quoteHandler, surveyHandler,
          newsletterHandler, errorMiddleware, h1, h2, h3, hn, hdev]

/-- Witness for C7 at concrete inputs, with a concrete failure detail. -/
theorem persistence_failure_generic_500_check :
    contactHandler envCreds (some "ECONNREFUSED 127.0.0.1:5432") none 0 reqC w0 =
      (Response.serverError "Failed to submit contact form", w0)
  ∧ appointmentHandler envCreds (some "ECONNREFUSED 127.0.0.1:5432") 0 reqA w0 =
      (Response.serverError "Failed to submit appointment request", w0)
  ∧ quoteHandler envCreds (some "ECONNREFUSED 127.0.0.1:5432") none 0 reqQ w0 =
      (Response.serverError "Failed to submit quote request", w0)
  ∧ surveyHandler (some "ECONNREFUSED 127.0.0.1:5432") 0 reqS w0 =
      (Response.serverError "Failed to submit survey", w0)
  ∧ newsletterHandler (some "ECONNREFUSED 127.0.0.1:5432") 0 reqN w0 =
      (Response.serverError "Failed to subscribe to newsletter", w0)
  ∧ (errorMiddleware envCreds "ECONNREFUSED 127.0.0.1:5432").message = none :=
  persistence_failure_generic_500 envCreds none 0 reqC reqA reqQ reqS reqN w0
    "ECONNREFUSED 127.0.0.1:5432" (by decide) (by decide) (by decide) (by decide) (by decide)

/-- C9: with credentials configured, the contact and quote handlers await
the dispatch before responding and do not retry: when the dispatch raises
after a successful insert, the row stays persisted (and no mail is
recorded) while the caller gets the generic 500 error. -/
theorem dispatch_failure_after_insert (env : Env) (now : Nat) (req : ContactReq)
    (qreq : QuoteReq) (w : World) (d : String)
    (hcred : (truthy env.emailUser && truthy env.emailPassword) = true)
    (hc : (truthy req.name && (truthy req.email || truthy req.phone)) = true)
    (hq : (truthy qreq.contactName && truthy qreq.email) = true) :
    contactHandler env none (some d) now req w =
      (Response.serverError "Failed to submit contact form",
       { w with contacts := w.contacts ++ [contactRowOf req now (w.contacts.length + 1)] })
  ∧ quoteHandler env none (some d) now qreq w =
      (Response.serverError "Failed to submit quote request",
       { w with quotes := w.quotes ++ [quoteRowOf qreq now (w.quotes.length + 1)] }) := by
  have h1 : (!truthy req.name || (!truthy req.email && !truthy req.phone)) = false := by
    cases h : truthy req.name <;> cases he : truthy req.email <;>
      cases hp : truthy req.phone <;> simp_all
  have h3 : (!truthy qreq.contactName || !truthy qreq.email) = false := by
    cases h : truthy qreq.contactName <;> cases hb : truthy qreq.email <;> simp_all
  constructor <;> simp [contactHandler, quoteHandler, h1, h3, hcred]

/-- Witness for C9 at concrete inputs with configured credentials. -/
theorem dispatch_failure_after_insert_check :
    contactHandler envCreds none (some "smtp timeout") 0 reqC w0 =
      (Response.serverError "Failed to submit contact form",
       { w0 with contacts := w0.contacts ++ [contactRowOf reqC 0 (w0.contacts.length + 1)] })
  ∧ quoteHandler envCreds none (some "smtp timeout") 0 reqQ w0 =
      (Response.serverError "Failed to submit quote request",
       { w0 with quotes := w0.quotes ++ [quoteRowOf reqQ 0 (w0.quotes.length + 1)] }) :=
  dispatch_failure_after_insert envCreds 0 reqC reqQ w0 "smtp timeout"
    (by decide) (by decide) (by decide)

theorem news_filter_nil (e : String) (l : List NewsRow)
    (h : ∀ r ∈ l, (r.email == e) = false) :
    l.filter (fun r => r.email == e) = [] := by
  induction l with
  | nil => rfl
  | cons r rs ih =>
    have hr := h r (List.mem_cons_self r rs)
    rw [List.filter_cons, if_neg (by simp [hr])]
    exact ih (fun x hx => h x (List.mem_cons_of_mem r hx))

theorem news_map_id (e : String) (n : Option String) (t : Nat) (l : List NewsRow)
    (h : ∀ r ∈ l, (r.email == e) = false) :
    l.map (fun r => if r.email == e then { r with name := n, createdAt := t } else r) = l := by
  induction l with
  | nil => rfl
  | cons r rs ih =>
    have hr := h r (List.mem_cons_self r rs)
    simp only [List.map_cons]
    rw [if_neg (by simp [hr])]
    rw [ih (fun x hx => h x (List.mem_cons_of_mem r hx))]

theorem news_filter_map (e : String) (n : Option String) (t : Nat) (l : List NewsRow) :
    (l.filter (fun r => r.email == e)).length ≤ 1 →
    l.any (fun r => r.email == e) = true →
    (l.map (fun r => if r.email == e then { r with name := n, createdAt := t } else r)).filter
      (fun r => r.email == e) = [{ email := e, name := n, createdAt := t }] := by
  induction l with
  | nil => intro _ hany; simp at hany
  | cons r rs ih =>
    intro hlen hany
    cases hr : (r.email == e) with
    | true =>
      have htail : ∀ x ∈ rs, (x.email == e) = false := by
        intro x hx
        cases hx2 : (x.email == e) with
        | false => rfl
        | true =>
          exfalso
          have h2 : x ∈ rs.filter (fun r => r.email == e) :=
            List.mem_filter.mpr ⟨hx, hx2⟩
          have h3 : 1 ≤ (rs.filter (fun r => r.email == e)).length := by
            cases hf : rs.filter (fun r => r.email == e) with
            | nil => rw [hf] at h2; simp at h2
            | cons a as => simp [hf]
          have h1 : ((r :: rs).filter (fun r => r.email == e)).length =
              (rs.filter (fun r => r.email == e)).length + 1 := by
            rw [List.filter_cons, if_pos hr]
            simp
          rw [h1] at hlen
          omega
      have hmap : rs.map (fun r => if r.email == e then { r with name := n, createdAt := t } else r) = rs :=
        news_map_id e n t rs htail
      have hrow : ({ r with name := n, createdAt := t } : NewsRow) =
          { email := e, name := n, createdAt := t } := by
        have hemail : r.email = e := eq_of_beq hr
        cases r
        simp_all
      simp only [List.map_cons]
      rw [if_pos hr, hrow]
      rw [List.filter_cons, if_pos (by simp)]
      rw [hmap, news_filter_nil e rs htail]
    | false =>
      have hlen2 : (rs.filter (fun r => r.email == e)).length ≤ 1 := by
        rw [List.filter_cons, if_neg (by simp [hr])] at hlen
        exact hlen
      have hany2 : rs.any (fun r => r.email == e) = true := by
        rw [List.any_cons] at hany
        simpa [hr] using hany
      simp only [List.map_cons]
      rw [if_neg (by simp [hr])]
      rw [List.filter_cons, if_neg (by simp [hr])]
      exact ih hlen2 hany2

theorem upsert_filter (e : String) (n : Option String) (t : Nat) (rows : List NewsRow)
    (h : (rows.filter (fun r => r.email == e)).length ≤ 1) :
    (upsertNews rows e n t).filter (fun r => r.email == e) =
      [{ email := e, name := n, createdAt := t }] := by
  cases hany : rows.any (fun r => r.email == e) with
  | true =>
    rw [upsertNews, if_pos hany]
    exact news_filter_map e n t rows h hany
  | false =>
    have hall : ∀ r ∈ rows, (r.email == e) = false := by
      intro r hrm
      cases hx : (r.email == e) with
      | false => rfl
      | true =>
        exfalso
        have hh : rows.any (fun r => r.email == e) = true :=
          List.any_eq_true.mpr ⟨r, hrm, hx⟩
        rw [hh] at hany
        cases hany
    rw [upsertNews, if_neg (by simp [hany])]
    rw [List.filter_append, news_filter_nil e rows hall]
    simp

/-- C3: two POST /api/newsletter submissions with the same (truthy) email
and different names both succeed and leave exactly one stored row for that
email, carrying the second name and the second timestamp (last writer
wins), given the store's uniqueness of the email key beforehand. -/
theorem newsletter_upsert_last_writer (w : World) (e : String) (n1 n2 : Option String)
    (t1 t2 : Nat) (he : e ≠ "")
    (huniq : (w.newsletters.filter (fun r => r.email == e)).length ≤ 1)
    (_hnames : n1 ≠ n2) :
    (newsletterHandler none t1 { email := some e, name := n1 } w).1 =
      Response.ok "Successfully subscribed to our newsletter!" []
  ∧ (newsletterHandler none t2 { email := some e, name := n2 }
       (newsletterHandler none t1 { email := some e, name := n1 } w).2).1 =
      Response.ok "Successfully subscribed to our newsletter!" []
  ∧ (newsletterHandler none t2 { email := some e, name := n2 }
       (newsletterHandler none t1 { email := some e, name := n1 } w).2).2.newsletters.filter
        (fun r => r.email == e) = [{ email := e, name := n2, createdAt := t2 }] := by
  have hbe : (e == "") = false := by
    cases hx : (e == "") with
    | false => rfl
    | true => exact absurd (eq_of_beq hx) he
  have htr : truthy (some e) = true := by simp [truthy, hbe]
  have hstep1 : (newsletterHandler none t1 { email := some e, name := n1 } w).2.newsletters =
      upsertNews w.newsletters e n1 t1 := by
    simp [newsletterHandler, htr]
  have hfilter1 : (upsertNews w.newsletters e n1 t1).filter (fun r => r.email == e) =
      [{ email := e, name := n1, createdAt := t1 }] :=
    upsert_filter e n1 t1 w.newsletters huniq
  refine ⟨?_, ?_, ?_⟩
  · simp [newsletterHandler, htr]
  · simp [newsletterHandler, htr]
  · have h2 : (newsletterHandler none t2 { email := some e, name := n2 }
        (newsletterHandler none t1 { email := some e, name := n1 } w).2).2.newsletters =
        upsertNews (upsertNews w.newsletters e n1 t1) e n2 t2 := by
      simp [newsletterHandler, htr, hstep1]
    rw [h2]
    exact upsert_filter e n2 t2 _ (by rw [hfilter1]; simp)

/-- Witness for C3: the spec's own example, `a@b.com` with names Ann then
Annie on the empty store. -/
theorem newsletter_upsert_last_writer_check :
    (newsletterHandler none 1 { email := some "a@b.com", name := some "Ann" } w0).1 =
      Response.ok "Successfully subscribed to our newsletter!" []
  ∧ (newsletterHandler none 2 { email := some "a@b.com", name := some "Annie" }
       (newsletterHandler none 1 { email := some "a@b.com", name := some "Ann" } w0).2).1 =
      Response.ok "Successfully subscribed to our newsletter!" []
  ∧ (newsletterHandler none 2 { email := some "a@b.com", name := some "Annie" }
       (newsletterHandler none 1 { email := some "a@b.com", name := some "Ann" } w0).2).2.newsletters.filter
        (fun r => r.email == "a@b.com") =
      [{ email := "a@b.com", name := some "Annie", createdAt := 2 }] :=
  newsletter_upsert_last_writer w0 "a@b.com" (some "Ann") (some "Annie") 1 2
    (by decide) (by decide) (by decide)

/-- C4 counterexample: the contact notification body the code builds does
not HTML-escape the user-supplied values — at a name containing markup it
differs from the spec's escaped-substitution body (and escaping that name
is not a no-op, so the difference is the missing escaping). -/
theorem contact_html_not_escaped :
    contactHtml "<script>alert(1)</script>" none none none "general" 0 ≠
      contactHtmlEscapedSpec "<script>alert(1)</script>" none none none "general" 0
  ∧ htmlEscape "<script>alert(1)</script>" ≠ "<script>alert(1)</script>" := by
  constructor
  · decide
  · decide

theorem seg_head (v b : String) : ∃ p q, v ++ b = p ++ (v ++ q) :=
  ⟨"", b, rfl⟩

theorem seg_cons (a : String) {v s : String} (h : ∃ p q, s = p ++ (v ++ q)) :
    ∃ p q, a ++ s = p ++ (v ++ q) := by
  obtain ⟨p, q, hp⟩ := h
  exact ⟨a ++ p, q, by rw [hp, String.append_assoc]⟩

/-- C4 amended: every user-supplied template field value is substituted
verbatim (without HTML escaping) into the fixed subject/body layouts of the
contact and quote notification emails: each substituted value — name,
email, phone, message and type in the contact body, company, contact name,
email, phone, employees, provider and interest in the quote body, and the
values interpolated into both subjects — appears as a contiguous raw
segment of the produced text. -/
theorem contact_quote_html_verbatim (name : String) (email phone message : Option String)
    (stype : String) (t : Nat) (companyName : Option String) (contactName qemail : String)
    (qphone nEmp curProv intIn : Option String) (t2 : Nat) :
    (∃ p q, contactHtml name email phone message stype t = p ++ (name ++ q))
  ∧ (∃ p q, contactHtml name email phone message stype t =
       p ++ (jsOr email "Not provided" ++ q))
  ∧ (∃ p q, contactHtml name email phone message stype t =
       p ++ (jsOr phone "Not provided" ++ q))
  ∧ (∃ p q, contactHtml name email phone message stype t = p ++ (jsStr message ++ q))
  ∧ (∃ p q, contactHtml name email phone message stype t = p ++ (stype ++ q))
  ∧ (∃ p, "New Contact Form Submission - " ++ stype = p ++ stype)
  ∧ (∃ p q, quoteHtml companyName contactName qemail qphone nEmp curProv intIn t2 =
       p ++ (jsOr companyName "N/A" ++ q))
  ∧ (∃ p q, quoteHtml companyName contactName qemail qphone nEmp curProv intIn t2 =
       p ++ (contactName ++ q))
  ∧ (∃ p q, quoteHtml companyName contactName qemail qphone nEmp curProv intIn t2 =
       p ++ (qemail ++ q))
  ∧ (∃ p q, quoteHtml companyName contactName qemail qphone nEmp curProv intIn t2 =
       p ++ (jsOr qphone "Not provided" ++ q))
  ∧ (∃ p q, quoteHtml companyName contactName qemail qphone nEmp curProv intIn t2 =
       p ++ (jsOr nEmp "Not specified" ++ q))
  ∧ (∃ p q, quoteHtml companyName contactName qemail qphone nEmp curProv intIn t2 =
       p ++ (jsOr curProv "None" ++ q))
  ∧ (∃ p q, quoteHtml companyName contactName qemail qphone nEmp curProv intIn t2 =
       p ++ (jsOr intIn "General Information" ++ q))
  ∧ (∃ p, "New Group Insurance Quote Request - " ++ jsOr companyName "Individual" =
       p ++ jsOr companyName "Individual") := by
  refine ⟨?_, ?_, ?_, ?_, ?_, ⟨"New Contact Form Submission - ", rfl⟩,
    ?_, ?_, ?_, ?_, ?_, ?_, ?_,
    ⟨"New Group Insurance Quote Request - ", rfl⟩⟩ <;>
    (simp only [contactHtml, quoteHtml, String.append_assoc]
     repeat first | exact seg_head _ _ | apply seg_cons)

theorem charOfDigit_isDigit (d : Nat) (h : d < 10) : (charOfDigit d).isDigit = true := by
  interval_cases d <;> decide

theorem digitVal_charOfDigit (d : Nat) (h : d < 10) : digitVal (charOfDigit d) = d := by
  interval_cases d <;> decide

theorem isDigit_beq_false {c d : Char} (h : c.isDigit = true) (hd : d.isDigit = false) :
    (c == d) = false := by
  cases hcd : (c == d) with
  | false => rfl
  | true =>
    have he : c = d := eq_of_beq hcd
    rw [he] at h
    rw [h] at hd
    exact Bool.noConfusion hd

theorem natToChars_all_digits (m : Nat) : ∀ c ∈ natToChars m, c.isDigit = true := by
  intro c hc
  by_cases hm : m = 0
  · rw [natToChars, if_pos hm] at hc
    simp at hc
    rw [hc]
    decide
  · rw [natToChars, if_neg hm] at hc
    obtain ⟨d, hd, hcd⟩ := List.mem_map.mp hc
    have hdm : d ∈ Nat.digits 10 m := List.mem_reverse.mp hd
    have hlt : d < 10 := Nat.digits_lt_base (by norm_num) hdm
    rw [← hcd]
    exact charOfDigit_isDigit d hlt

theorem natToChars_cons (m : Nat) : ∃ c t, natToChars m = c :: t := by
  by_cases hm : m = 0
  · exact ⟨'0', [], by rw [natToChars, if_pos hm]⟩
  · rw [natToChars, if_neg hm]
    cases hds : (Nat.digits 10 m).reverse.map charOfDigit with
    | nil =>
      exfalso
      have h1 : (Nat.digits 10 m).reverse = [] := List.map_eq_nil_iff.mp hds
      have h2 : Nat.digits 10 m = [] := by
        cases hx : Nat.digits 10 m with
        | nil => rfl
        | cons a as => rw [hx] at h1; simp at h1
      exact hm (Nat.digits_eq_nil_iff_eq_zero.mp h2)
    | cons c t => exact ⟨c, t, rfl⟩

theorem natOfChars_natToChars (m : Nat) : natOfChars (natToChars m) = m := by
  by_cases hm : m = 0
  · rw [natToChars, if_pos hm, hm]
    rfl
  · rw [natToChars, if_neg hm, natOfChars]
    rw [List.map_map]
    have hmap : (Nat.digits 10 m).reverse.map (digitVal ∘ charOfDigit) =
        (Nat.digits 10 m).reverse := by
      have : ∀ (l : List Nat), (∀ d ∈ l, d < 10) → l.map (digitVal ∘ charOfDigit) = l := by
        intro l
        induction l with
        | nil => intro _; rfl
        | cons a as ih =>
          intro hl
          have ha := digitVal_charOfDigit a (hl a (List.mem_cons_self a as))
          simp only [List.map_cons, Function.comp_apply]
          rw [ha, ih (fun d hd => hl d (List.mem_cons_of_mem a hd))]
      apply this
      intro d hd
      exact Nat.digits_lt_base (by norm_num) (List.mem_reverse.mp hd)
    rw [hmap, List.reverse_reverse, Nat.ofDigits_digits]

theorem takeWhile_all {p : Char → Bool} (l rest : List Char)
    (hall : ∀ c ∈ l, p c = true) (hrest : ∀ c, rest.head? = some c → p c = false) :
    (l ++ rest).takeWhile p = l ∧ (l ++ rest).dropWhile p = rest := by
  induction l with
  | nil =>
    simp only [List.nil_append]
    cases rest with
    | nil => exact ⟨rfl, rfl⟩
    | cons c cs =>
      have hc := hrest c rfl
      rw [List.takeWhile_cons, List.dropWhile_cons]
      simp [hc]
  | cons a l ih =>
    have ha := hall a (List.mem_cons_self a l)
    have ih2 := ih (fun c hc => hall c (List.mem_cons_of_mem a hc))
    simp only [List.cons_append, List.takeWhile_cons, List.dropWhile_cons, ha]
    simp [ih2.1, ih2.2]

theorem dFree_head {rest : List Char} (hr : dFree rest = true) :
    ∀ c, rest.head? = some c → c.isDigit = false := by
  cases rest with
  | nil => intro c hc; cases hc
  | cons a as =>
    intro c hc
    have hac : a = c := by simpa using hc
    rw [dFree] at hr
    rw [← hac]
    cases hx : a.isDigit with
    | false => rfl
    | true => rw [hx] at hr; cases hr

theorem parseStrAux_escape (s : List Char) : ∀ rest : List Char,
    parseStrAux (escapeChars s ++ ('"' :: rest)) = some (s, rest) := by
  induction s with
  | nil =>
    intro rest
    rw [escapeChars, List.nil_append, parseStrAux.eq_def]
    simp
  | cons c cs ih =>
    intro rest
    cases hsp : ((c == '"') || (c == '\\')) with
    | true =>
      rw [escapeChars, if_pos hsp]
      simp only [List.cons_append]
      rw [parseStrAux.eq_def]
      simp [ih rest]
    | false =>
      have h1 : (c == '"') = false := by
        cases h : (c == '"') with
        | false => rfl
        | true => rw [h] at hsp; simp at hsp
      have h2 : (c == '\\') = false := by
        cases h : (c == '\\') with
        | false => rfl
        | true => rw [h] at hsp; simp at hsp
      rw [escapeChars, if_neg (by simp [hsp])]
      simp only [List.cons_append]
      rw [parseStrAux.eq_def]
      simp [h1, h2, ih rest]

theorem strV_head (v : Json) : ∃ c t, strV v = c :: t ∧ (c == ']') = false := by
  cases v with
  | null => exact ⟨'n', ['u', 'l', 'l'], by simp [strV], by decide⟩
  | bool b =>
    cases b with
    | true => exact ⟨'t', ['r', 'u', 'e'], by simp [strV], by decide⟩
    | false => exact ⟨'f', ['a', 'l', 's', 'e'], by simp [strV], by decide⟩
  | num n =>
    by_cases hn : n < 0
    · exact ⟨'-', natToChars (-n).toNat, by simp [strV, hn], by decide⟩
    · obtain ⟨c, t, hct⟩ := natToChars_cons n.toNat
      have hd : c.isDigit = true :=
        natToChars_all_digits n.toNat c (by rw [hct]; exact List.mem_cons_self c t)
      refine ⟨c, t, ?_, isDigit_beq_false hd (by decide)⟩
      rw [show strV (Json.num n) = natToChars n.toNat by simp [strV, hn]]
      exact hct
  | str s => exact ⟨'"', escapeChars s ++ ['"'], by simp [strV], by decide⟩
  | arr xs => exact ⟨'[', strItems xs, by simp [strV], by decide⟩
  | obj fs => exact ⟨'{', strFields fs, by simp [strV], by decide⟩

theorem fuelV_pos (v : Json) : 1 ≤ fuelV v := by
  cases v <;> simp [fuelV]

theorem fuelL_pos (xs : JsonList) : 1 ≤ fuelL xs := by
  cases xs with
  | nil => simp [fuelL]
  | cons h t => cases t <;> simp only [fuelL] <;> omega

theorem fuelO_pos (fs : JsonObj) : 1 ≤ fuelO fs := by
  cases fs with
  | nil => simp [fuelO]
  | cons k v t => cases t <;> simp only [fuelO] <;> omega

theorem parse_sound (fuel : Nat) :
    (∀ v rest, fuelV v ≤ fuel → dFree rest = true →
       parseV fuel (strV v ++ rest) = some (v, rest))
  ∧ (∀ xs rest, fuelL xs ≤ fuel →
       parseArr fuel (strItems xs ++ rest) = some (xs, rest))
  ∧ (∀ fs rest, fuelO fs ≤ fuel →
       parseObj fuel (strFields fs ++ rest) = some (fs, rest)) := by
  induction fuel with
  | zero =>
    refine ⟨?_, ?_, ?_⟩
    · intro v rest hf _
      exact absurd hf (by have := fuelV_pos v; omega)
    · intro xs rest hf
      exact absurd hf (by have := fuelL_pos xs; omega)
    · intro fs rest hf
      exact absurd hf (by have := fuelO_pos fs; omega)
  | succ fuel ih =>
    obtain ⟨ihV, ihA, ihO⟩ := ih
    refine ⟨?_, ?_, ?_⟩
    · intro v rest hf hr
      cases v with
      | null =>
        rw [show strV Json.null = ['n', 'u', 'l', 'l'] from by simp [strV]]
        rw [show (['n', 'u', 'l', 'l'] : List Char) ++ rest =
             'n' :: ('u' :: 'l' :: 'l' :: rest) from by simp]
        rw [parseV.eq_def]
        simp
      | bool b =>
        cases b with
        | true =>
          rw [show strV (Json.bool true) = ['t', 'r', 'u', 'e'] from by simp [strV]]
          rw [show (['t', 'r', 'u', 'e'] : List Char) ++ rest =
               't' :: ('r' :: 'u' :: 'e' :: rest) from by simp]
          rw [parseV.eq_def]
          simp
        | false =>
          rw [show strV (Json.bool false) = ['f', 'a', 'l', 's', 'e'] from by simp [strV]]
          rw [show (['f', 'a', 'l', 's', 'e'] : List Char) ++ rest =
               'f' :: ('a' :: 'l' :: 's' :: 'e' :: rest) from by simp]
          rw [parseV.eq_def]
          simp
      | num n =>
        by_cases hn : n < 0
        · rw [show strV (Json.num n) = '-' :: natToChars (-n).toNat from by simp [strV, hn]]
          rw [List.cons_append]
          obtain ⟨c, t, hct⟩ := natToChars_cons (-n).toNat
          have htk := takeWhile_all (p := Char.isDigit) (natToChars (-n).toNat) rest
            (natToChars_all_digits _) (dFree_head hr)
          rw [parseV.eq_def]
          simp only [show (('-' : Char) == 'n') = false from by decide,
            show (('-' : Char) == 't') = false from by decide,
            show (('-' : Char) == 'f') = false from by decide,
            show (('-' : Char) == '"') = false from by decide,
            show (('-' : Char) == '[') = false from by decide,
            show (('-' : Char) == '{') = false from by decide,
            show (('-' : Char) == '-') = true from by decide,
            Bool.false_eq_true, if_false, if_true, htk.1, htk.2]
          rw [hct]
          simp [natOfChars_natToChars]
          rw [← hct, natOfChars_natToChars]
          have h1 : (((-n).toNat : Nat) : Int) = -n := Int.toNat_of_nonneg (by omega)
          simp only [Int.ofNat_eq_natCast, h1]
          omega
        · obtain ⟨c, t, hct⟩ := natToChars_cons n.toNat
          have hd : c.isDigit = true :=
            natToChars_all_digits n.toNat c (by rw [hct]; exact List.mem_cons_self c t)
          have htk := takeWhile_all (p := Char.isDigit) (natToChars n.toNat) rest
            (natToChars_all_digits _) (dFree_head hr)
          rw [show strV (Json.num n) = natToChars n.toNat from by simp [strV, hn]]
          rw [hct, List.cons_append, parseV.eq_def]
          have hlist : c :: (t ++ rest) = natToChars n.toNat ++ rest := by
            rw [hct]; simp
          simp only [isDigit_beq_false hd (show ('n' : Char).isDigit = false from by decide),
            isDigit_beq_false hd (show ('t' : Char).isDigit = false from by decide),
            isDigit_beq_false hd (show ('f' : Char).isDigit = false from by decide),
            isDigit_beq_false hd (show ('"' : Char).isDigit = false from by decide),
            isDigit_beq_false hd (show ('[' : Char).isDigit = false from by decide),
            isDigit_beq_false hd (show ('{' : Char).isDigit = false from by decide),
            isDigit_beq_false hd (show ('-' : Char).isDigit = false from by decide),
            Bool.false_eq_true, if_false, hd, if_true, hlist, htk.1, htk.2]
          rw [natOfChars_natToChars]
          have h1 : ((n.toNat : Nat) : Int) = n := Int.toNat_of_nonneg (by omega)
          simp only [Int.ofNat_eq_natCast, h1]
      | str s =>
        rw [show strV (Json.str s) = '"' :: (escapeChars s ++ ['"']) from by simp [strV]]
        rw [show ('"' :: (escapeChars s ++ ['"'])) ++ rest =
             '"' :: (escapeChars s ++ ('"' :: rest)) from by simp]
        rw [parseV.eq_def]
        simp [parseStrAux_escape]
      | arr xs =>
        have hfl : fuelL xs ≤ fuel := by simp [fuelV] at hf; omega
        rw [show strV (Json.arr xs) = '[' :: strItems xs from by simp [strV]]
        rw [List.cons_append, parseV.eq_def]
        simp [ihA xs rest hfl]
      | obj fs =>
        have hfo : fuelO fs ≤ fuel := by simp [fuelV] at hf; omega
        rw [show strV (Json.obj fs) = '{' :: strFields fs from by simp [strV]]
        rw [List.cons_append, parseV.eq_def]
        simp [ihO fs rest hfo]
    · intro xs rest hf
      cases xs with
      | nil =>
        rw [show strItems JsonList.nil = [']'] from by simp [strItems]]
        rw [show ([']'] : List Char) ++ rest = ']' :: rest from by simp]
        rw [parseArr.eq_def]
        simp
      | cons hd t =>
        obtain ⟨c, ct, hct, hcne⟩ := strV_head hd
        cases t with
        | nil =>
          have hfv : fuelV hd ≤ fuel := by simp [fuelL] at hf; omega
          have hv := ihV hd (']' :: rest) hfv (by simp [dFree])
          rw [show strItems (JsonList.cons hd JsonList.nil) = strV hd ++ [']'] from by
            simp [strItems]]
          have he : (strV hd ++ [']']) ++ rest = c :: (ct ++ (']' :: rest)) := by
            rw [hct]; simp
          rw [he, parseArr.eq_def]
          have hv2 : parseV fuel (c :: (ct ++ (']' :: rest))) = some (hd, ']' :: rest) := by
            rw [show c :: (ct ++ (']' :: rest)) = strV hd ++ (']' :: rest) from by
              rw [hct]; simp]
            exact hv
          simp [hcne, hv2]
        | cons h2 t2 =>
          have hfv : fuelV hd ≤ fuel := by simp [fuelL] at hf; omega
          have hfl2 : fuelL (JsonList.cons h2 t2) ≤ fuel := by simp [fuelL] at hf; omega
          have hv := ihV hd (',' :: (strItems (JsonList.cons h2 t2) ++ rest)) hfv
            (by simp [dFree])
          have ha := ihA (JsonList.cons h2 t2) rest hfl2
          rw [show strItems (JsonList.cons hd (JsonList.cons h2 t2)) =
               strV hd ++ (',' :: strItems (JsonList.cons h2 t2)) from by simp [strItems]]
          have he : (strV hd ++ (',' :: strItems (JsonList.cons h2 t2))) ++ rest =
              c :: (ct ++ (',' :: (strItems (JsonList.cons h2 t2) ++ rest))) := by
            rw [hct]; simp
          rw [he, parseArr.eq_def]
          have hv2 : parseV fuel (c :: (ct ++ (',' :: (strItems (JsonList.cons h2 t2) ++ rest)))) =
              some (hd, ',' :: (strItems (JsonList.cons h2 t2) ++ rest)) := by
            rw [show c :: (ct ++ (',' :: (strItems (JsonList.cons h2 t2) ++ rest))) =
                 strV hd ++ (',' :: (strItems (JsonList.cons h2 t2) ++ rest)) from by
              rw [hct]; simp]
            exact hv
          simp [hcne, hv2, ha]
    · intro fs rest hf
      cases fs with
      | nil =>
        rw [show strFields JsonObj.nil = ['}'] from by simp [strFields]]
        rw [show (['}'] : List Char) ++ rest = '}' :: rest from by simp]
        rw [parseObj.eq_def]
        simp
      | cons k v t =>
        cases t with
        | nil =>
          have hfv : fuelV v ≤ fuel := by simp [fuelO] at hf; omega
          have hv := ihV v ('}' :: rest) hfv (by simp [dFree])
          rw [show strFields (JsonObj.cons k v JsonObj.nil) =
               '"' :: (escapeChars k ++ ('"' :: (':' :: (strV v ++ ['}'])))) from by
            simp [strFields]]
          rw [show ('"' :: (escapeChars k ++ ('"' :: (':' :: (strV v ++ ['}']))))) ++ rest =
               '"' :: (escapeChars k ++ ('"' :: (':' :: (strV v ++ ('}' :: rest))))) from by
            simp]
          rw [parseObj.eq_def]
          simp [parseStrAux_escape, hv]
        | cons k2 v2 t2 =>
          have hfv : fuelV v ≤ fuel := by simp [fuelO] at hf; omega
          have hfo2 : fuelO (JsonObj.cons k2 v2 t2) ≤ fuel := by simp [fuelO] at hf; omega
          have hv := ihV v (',' :: (strFields (JsonObj.cons k2 v2 t2) ++ rest)) hfv
            (by simp [dFree])
          have ho := ihO (JsonObj.cons k2 v2 t2) rest hfo2
          rw [show strFields (JsonObj.cons k v (JsonObj.cons k2 v2 t2)) =
               '"' :: (escapeChars k ++ ('"' :: (':' :: (strV v ++
                 (',' :: strFields (JsonObj.cons k2 v2 t2)))))) from by simp [strFields]]
          rw [show ('"' :: (escapeChars k ++ ('"' :: (':' :: (strV v ++
                 (',' :: strFields (JsonObj.cons k2 v2 t2))))))) ++ rest =
               '"' :: (escapeChars k ++ ('"' :: (':' :: (strV v ++
                 (',' :: (strFields (JsonObj.cons k2 v2 t2) ++ rest)))))) from by simp]
          rw [parseObj.eq_def]
          simp [parseStrAux_escape, hv, ho]

mutual

theorem fuelV_le_len : ∀ v : Json, fuelV v ≤ (strV v).length
  | Json.null => by simp [fuelV, strV]
  | Json.bool b => by cases b <;> simp [fuelV, strV]
  | Json.num n => by
      by_cases hn : n < 0
      · simp [fuelV, strV, hn]
      · obtain ⟨c, t, hct⟩ := natToChars_cons n.toNat
        simp [fuelV, strV, hn, hct]
  | Json.str s => by simp [fuelV, strV]
  | Json.arr xs => by
      have h := fuelL_le_len xs
      simp only [fuelV, strV, List.length_cons]
      omega
  | Json.obj fs => by
      have h := fuelO_le_len fs
      simp only [fuelV, strV, List.length_cons]
      omega

theorem fuelL_le_len : ∀ xs : JsonList, fuelL xs ≤ (strItems xs).length
  | JsonList.nil => by simp [fuelL, strItems]
  | JsonList.cons h JsonList.nil => by
      have h1 := fuelV_le_len h
      simp only [fuelL, strItems, List.length_append, List.length_cons, List.length_nil]
      omega
  | JsonList.cons h (JsonList.cons h2 t) => by
      have h1 := fuelV_le_len h
      have h2l := fuelL_le_len (JsonList.cons h2 t)
      simp only [fuelL, strItems, List.length_append, List.length_cons]
      omega

theorem fuelO_le_len : ∀ fs : JsonObj, fuelO fs ≤ (strFields fs).length
  | JsonObj.nil => by simp [fuelO, strFields]
  | JsonObj.cons k v JsonObj.nil => by
      have h1 := fuelV_le_len v
      simp only [fuelO, strFields, List.length_append, List.length_cons, List.length_nil]
      omega
  | JsonObj.cons k v (JsonObj.cons k2 v2 t) => by
      have h1 := fuelV_le_len v
      have h2l := fuelO_le_len (JsonObj.cons k2 v2 t)
      simp only [fuelO, strFields, List.length_append, List.length_cons]
      omega

end

theorem parseJson_strV (v : Json) : parseJson (strV v) = some v := by
  have h := (parse_sound ((strV v).length + 1)).1 v []
    (by have := fuelV_le_len v; omega) (by simp [dFree])
  rw [List.append_nil] at h
  rw [parseJson, h]

/-- C8: every surveyData value submitted to POST /api/survey is persisted
as its serialization in the inserted row, and reading that stored value
back and deserializing it yields exactly the submitted value (the
serialize-then-deserialize round trip is the identity); the submission
succeeds with the surveyId response. -/
theorem survey_roundtrip (now : Nat) (req : SurveyReq) (w : World) :
    (surveyHandler none now req w).1 =
      Response.ok "Survey submitted successfully. We will review and reach out to guide your journey!"
        [("surveyId", Nat.repr (w.surveys.length + 1))]
  ∧ (surveyHandler none now req w).2.surveys =
      w.surveys ++ [surveyRowOf req now (w.surveys.length + 1)]
  ∧ parseJson (surveyRowOf req now (w.surveys.length + 1)).survey_data =
      some req.surveyData := by
  refine ⟨rfl, rfl, ?_⟩
  rw [show (surveyRowOf req now (w.surveys.length + 1)).survey_data =
       strV req.surveyData from rfl]
  exact parseJson_strV req.surveyData
